import Mathlib

/-!
Shallow embedding of the DeepSignal trading-script repository
(backtest.py, forward_compound.py, deepseek_signal.py, daily_sma_cross.py,
45pair_sma.py) and proofs about its exit evaluator, signal handling,
statistics guards, and simulation loops.

Prices, percentages and monetary amounts are embedded as exact rationals
(ℚ); bar timestamps as integer seconds (ℤ).  Python `None` results become
`Option`, Python exceptions become `Except`.
-/

/-- One OHLCV candle.  Mirrors the dict records the scripts build from the
CSV: keys `time`, `open`, `high`, `low`, `close`, `volume`.  The Python key
`open` is named `op` here because `open` is a Lean keyword; `hi`, `lo`,
`cl`, `vol` mirror `high`, `low`, `close`, `volume`. -/
structure Bar where
  time : ℤ
  op   : ℚ
  hi   : ℚ
  lo   : ℚ
  cl   : ℚ
  vol  : ℚ
deriving DecidableEq, Repr

namespace Backtest

/-- `SLIP = 0.0001` from backtest.py. -/
def SLIP : ℚ := 1 / 10000

/-- `FEE = 0.0007` from backtest.py. -/
def FEE : ℚ := 7 / 10000

/-- Stop price as computed on line 31 of backtest.py:
`entry_px * (1 + stop / 100) if side == "long" else entry_px * (1 - stop / 100)`. -/
def stop_px (side : String) (stop entry_px : ℚ) : ℚ :=
  if side = "long" then entry_px * (1 + stop / 100) else entry_px * (1 - stop / 100)

/-- Target price as computed on line 32 of backtest.py:
`entry_px * (1 + target / 100) if side == "long" else entry_px * (1 - target / 100)`. -/
def tgt_px (side : String) (target entry_px : ℚ) : ℚ :=
  if side = "long" then entry_px * (1 + target / 100) else entry_px * (1 - target / 100)

/-- `bar_exit` from backtest.py.  Returns `(exit_price, exit_time, hit_stop)`
when the bar trips the stop or the target, `none` when the trade stays open
(the Python function returns `(None, None, None)` in that case). -/
def bar_exit (bar : Bar) (side : String) (stop target entry_px : ℚ) :
    Option (ℚ × ℤ × Bool) :=
  let stopPx := stop_px side stop entry_px
  let tgtPx  := tgt_px side target entry_px
  if side = "long" then
    if bar.lo ≤ stopPx then some (stopPx - SLIP, bar.time, true)
    else if bar.hi ≥ tgtPx then some (tgtPx + SLIP, bar.time, false)
    else none
  else
    if bar.hi ≥ stopPx then some (stopPx + SLIP, bar.time, true)
    else if bar.lo ≤ tgtPx then some (tgtPx - SLIP, bar.time, false)
    else none

end Backtest

namespace Forward

/-- `SLIP = 0.0001` from forward_compound.py. -/
def SLIP : ℚ := 1 / 10000

/-- `FEE = 0.00035` from forward_compound.py. -/
def FEE : ℚ := 35 / 100000

/-- `MAX_HOLD_HOURS = 24` from forward_compound.py. -/
def MAX_HOLD_HOURS : ℤ := 24

/-- A `Slice` (open position) from forward_compound.py.  `uid` is the
6-character random identifier, `birth_time` is the bar timestamp (integer
seconds) at which the slice was opened. -/
structure Slice where
  uid        : String
  side       : String
  entry_px   : ℚ
  stop       : ℚ
  target     : ℚ
  birth_idx  : ℕ
  birth_time : ℤ
deriving DecidableEq, Repr

/-- Stop price from line 22 of forward_compound.py:
`slc.entry_px * (1 - slc.stop/100) if slc.side=="buy" else slc.entry_px * (1 + slc.stop/100)`. -/
def stop_price (slc : Slice) : ℚ :=
  if slc.side = "buy" then slc.entry_px * (1 - slc.stop / 100)
  else slc.entry_px * (1 + slc.stop / 100)

/-- Target price from line 23 of forward_compound.py. -/
def target_price (slc : Slice) : ℚ :=
  if slc.side = "buy" then slc.entry_px * (1 + slc.target / 100)
  else slc.entry_px * (1 - slc.target / 100)

/-- `bar_exit` from forward_compound.py: `(exit_px, hit_stop)` if tripped,
else `none` (the Python returns `(None, None)`). -/
def bar_exit (bar : Bar) (slc : Slice) : Option (ℚ × Bool) :=
  let stopPx := stop_price slc
  let tgtPx  := target_price slc
  if slc.side = "buy" then
    if bar.lo ≤ stopPx then some (stopPx - SLIP, true)
    else if bar.hi ≥ tgtPx then some (tgtPx + SLIP, false)
    else none
  else
    if bar.hi ≥ stopPx then some (stopPx + SLIP, true)
    else if bar.lo ≤ tgtPx then some (tgtPx - SLIP, false)
    else none

/-- `check_24h_exit` from forward_compound.py: force-close at the bar's open
price adjusted by slippage once `MAX_HOLD_HOURS * 3600` seconds have elapsed
since the slice's birth. -/
def check_24h_exit (bar : Bar) (slc : Slice) : Option (ℚ × Bool) :=
  if bar.time - slc.birth_time ≥ MAX_HOLD_HOURS * 3600 then
    some (bar.op * (if slc.side = "buy" then 1 + SLIP else 1 - SLIP), false)
  else none

/-- The per-slice exit decision of forward_compound.py's run loop
(lines 63–67): `bar_exit` first, and `check_24h_exit` only when `bar_exit`
produced no exit. -/
def sliceExit (bar : Bar) (slc : Slice) : Option (ℚ × Bool) :=
  match bar_exit bar slc with
  | some r => some r
  | none => check_24h_exit bar slc

end Forward

/-- Spec formula for the stop price ("for LONG, stop_price = entry_price ×
(1 − stop_pct/100); for SHORT, stop_price = entry_price × (1 + stop_pct/100)"),
written from the spec's words to compare against the source definitions. -/
def specStopPrice (side : String) (stop_pct entry_price : ℚ) : ℚ :=
  if side = "long" then entry_price * (1 - stop_pct / 100)
  else entry_price * (1 + stop_pct / 100)

/-- Spec formula for the target price ("for LONG, target_price = entry_price ×
(1 + target_pct/100); for SHORT, target_price = entry_price × (1 − target_pct/100)"). -/
def specTargetPrice (side : String) (target_pct entry_price : ℚ) : ℚ :=
  if side = "long" then entry_price * (1 + target_pct / 100)
  else entry_price * (1 - target_pct / 100)

/-- C1: for every open position the exit evaluator computes stop and target
prices by the spec formulas.  forward_compound.py does ("buy" is the LONG
side, anything else SHORT), but backtest.py's `bar_exit` computes the LONG
stop **above** the entry (`entry_px * (1 + stop/100)`): at entry 100 with
stop 2 it yields 102 where the spec formula yields 98, and the SHORT stop
below the entry (96 instead of 104 at stop 4). -/
theorem C1_backtest_stop_formula_diverges :
    (∀ slc : Forward.Slice, slc.side = "buy" →
        Forward.stop_price slc = specStopPrice "long" slc.stop slc.entry_px ∧
        Forward.target_price slc = specTargetPrice "long" slc.target slc.entry_px) ∧
    (∀ slc : Forward.Slice, slc.side ≠ "buy" →
        Forward.stop_price slc = specStopPrice "short" slc.stop slc.entry_px ∧
        Forward.target_price slc = specTargetPrice "short" slc.target slc.entry_px) ∧
    Backtest.stop_px "long" 2 100 = 102 ∧ specStopPrice "long" 2 100 = 98 ∧
    Backtest.stop_px "short" 4 100 = 96 ∧ specStopPrice "short" 4 100 = 104 := by
  refine ⟨?_, ?_, by simp [Backtest.stop_px]; norm_num,
    by simp [specStopPrice]; norm_num, by simp [Backtest.stop_px]; norm_num,
    by simp [specStopPrice]; norm_num⟩
  · intro slc h
    constructor
    · simp [Forward.stop_price, specStopPrice, h]
    · simp [Forward.target_price, specTargetPrice, h]
  · intro slc h
    constructor
    · simp [Forward.stop_price, specStopPrice, h]
    · simp [Forward.target_price, specTargetPrice, h]

/-- Witness for C1's theorem at a concrete slice: the "buy" slice with entry
100, stop 2, target 4 gets stop price 98 and target price 104, and a "sell"
slice gets 102 and 96. -/
theorem C1_backtest_stop_formula_diverges_witness :
    Forward.stop_price ⟨"", "buy", 100, 2, 4, 0, 0⟩ = 98 ∧
    Forward.target_price ⟨"", "buy", 100, 2, 4, 0, 0⟩ = 104 := by
  have h := C1_backtest_stop_formula_diverges.1 ⟨"", "buy", 100, 2, 4, 0, 0⟩ rfl
  refine ⟨h.1.trans ?_, h.2.trans ?_⟩ <;> norm_num [specStopPrice, specTargetPrice]

/-- C2: whenever the stop-loss condition holds on a bar — in particular when
the stop and the target are simultaneously satisfiable — the exit evaluator
closes as a STOP exit at the stop price (`hit_stop = true`), never as a
TARGET exit; and when only the target condition holds it closes as a TARGET
exit.  Stated for every branch of both evaluators: forward_compound.py's
`bar_exit` ("buy" side and every other side) and backtest.py's `bar_exit`
("long" side and every other side — the latter is the branch its run loop
actually reaches, since it passes the lowercased "buy"/"sell" actions).
Every branch checks the stop condition first. -/
theorem C2_stop_checked_before_target :
    (∀ (bar : Bar) (slc : Forward.Slice), slc.side = "buy" →
        bar.lo ≤ Forward.stop_price slc → Forward.target_price slc ≤ bar.hi →
        Forward.bar_exit bar slc = some (Forward.stop_price slc - Forward.SLIP, true)) ∧
    (∀ (bar : Bar) (slc : Forward.Slice), slc.side = "buy" →
        ¬ bar.lo ≤ Forward.stop_price slc → Forward.target_price slc ≤ bar.hi →
        Forward.bar_exit bar slc = some (Forward.target_price slc + Forward.SLIP, false)) ∧
    (∀ (bar : Bar) (slc : Forward.Slice), slc.side ≠ "buy" →
        Forward.stop_price slc ≤ bar.hi → bar.lo ≤ Forward.target_price slc →
        Forward.bar_exit bar slc = some (Forward.stop_price slc + Forward.SLIP, true)) ∧
    (∀ (bar : Bar) (slc : Forward.Slice), slc.side ≠ "buy" →
        ¬ Forward.stop_price slc ≤ bar.hi → bar.lo ≤ Forward.target_price slc →
        Forward.bar_exit bar slc = some (Forward.target_price slc - Forward.SLIP, false)) ∧
    (∀ (bar : Bar) (stop target entry_px : ℚ),
        bar.lo ≤ Backtest.stop_px "long" stop entry_px →
        Backtest.tgt_px "long" target entry_px ≤ bar.hi →
        Backtest.bar_exit bar "long" stop target entry_px
          = some (Backtest.stop_px "long" stop entry_px - Backtest.SLIP, bar.time, true)) ∧
    (∀ (bar : Bar) (stop target entry_px : ℚ),
        ¬ bar.lo ≤ Backtest.stop_px "long" stop entry_px →
        Backtest.tgt_px "long" target entry_px ≤ bar.hi →
        Backtest.bar_exit bar "long" stop target entry_px
          = some (Backtest.tgt_px "long" target entry_px + Backtest.SLIP, bar.time, false)) ∧
    (∀ (bar : Bar) (side : String) (stop target entry_px : ℚ), side ≠ "long" →
        Backtest.stop_px side stop entry_px ≤ bar.hi →
        bar.lo ≤ Backtest.tgt_px side target entry_px →
        Backtest.bar_exit bar side stop target entry_px
          = some (Backtest.stop_px side stop entry_px + Backtest.SLIP, bar.time, true)) ∧
    (∀ (bar : Bar) (side : String) (stop target entry_px : ℚ), side ≠ "long" →
        ¬ Backtest.stop_px side stop entry_px ≤ bar.hi →
        bar.lo ≤ Backtest.tgt_px side target entry_px →
        Backtest.bar_exit bar side stop target entry_px
          = some (Backtest.tgt_px side target entry_px - Backtest.SLIP, bar.time, false)) := by
  refine ⟨?_, ?_, ?_, ?_, ?_, ?_, ?_, ?_⟩
  · intro bar slc hside hs _
    simp [Forward.bar_exit, hside, hs]
  · intro bar slc hside hs ht
    simp [Forward.bar_exit, hside, hs, ge_iff_le, ht]
  · intro bar slc hside hs _
    simp [Forward.bar_exit, hside, ge_iff_le, hs]
  · intro bar slc hside hs ht
    simp [Forward.bar_exit, hside, ge_iff_le, hs, ht]
  · intro bar stop target entry_px hs _
    simp [Backtest.bar_exit, hs]
  · intro bar stop target entry_px hs ht
    simp [Backtest.bar_exit, hs, ge_iff_le, ht]
  · intro bar side stop target entry_px hside hs _
    simp [Backtest.bar_exit, hside, ge_iff_le, hs]
  · intro bar side stop target entry_px hside hs ht
    simp [Backtest.bar_exit, hside, ge_iff_le, hs, ht]

/-- Witness for C2 at concrete bars and positions, one per branch: a LONG
slice with entry 100, stop 2 % (stop price 98), target 4 % (target price
104) on a bar with range [97, 105] — both conditions satisfiable — exits
as a STOP at 98 − 0.0001; on [99, 105] — only the target — as a TARGET at
104 + 0.0001; symmetric SHORT cases; backtest.py's "long" branch at its
(inverted) stop 102 / target 104; and backtest.py's else branch with the
"buy" side its run actually passes (stop price 98, target price 96). -/
theorem C2_stop_checked_before_target_witness :
    Forward.bar_exit ⟨0, 100, 105, 97, 100, 1⟩ ⟨"", "buy", 100, 2, 4, 0, 0⟩
      = some (Forward.stop_price ⟨"", "buy", 100, 2, 4, 0, 0⟩ - Forward.SLIP, true) ∧
    Forward.bar_exit ⟨0, 100, 105, 99, 100, 1⟩ ⟨"", "buy", 100, 2, 4, 0, 0⟩
      = some (Forward.target_price ⟨"", "buy", 100, 2, 4, 0, 0⟩ + Forward.SLIP, false) ∧
    Forward.bar_exit ⟨0, 100, 103, 95, 100, 1⟩ ⟨"", "sell", 100, 2, 4, 0, 0⟩
      = some (Forward.stop_price ⟨"", "sell", 100, 2, 4, 0, 0⟩ + Forward.SLIP, true) ∧
    Forward.bar_exit ⟨0, 100, 101, 95, 100, 1⟩ ⟨"", "sell", 100, 2, 4, 0, 0⟩
      = some (Forward.target_price ⟨"", "sell", 100, 2, 4, 0, 0⟩ - Forward.SLIP, false) ∧
    Backtest.bar_exit ⟨0, 100, 105, 95, 100, 1⟩ "long" 2 4 100
      = some (Backtest.stop_px "long" 2 100 - Backtest.SLIP, 0, true) ∧
    Backtest.bar_exit ⟨0, 100, 105, 103, 100, 1⟩ "long" 2 4 100
      = some (Backtest.tgt_px "long" 4 100 + Backtest.SLIP, 0, false) ∧
    Backtest.bar_exit ⟨0, 100, 99, 95, 100, 1⟩ "buy" 2 4 100
      = some (Backtest.stop_px "buy" 2 100 + Backtest.SLIP, 0, true) ∧
    Backtest.bar_exit ⟨0, 100, 97, 95, 100, 1⟩ "buy" 2 4 100
      = some (Backtest.tgt_px "buy" 4 100 - Backtest.SLIP, 0, false) := by
  obtain ⟨h1, h2, h3, h4, h5, h6, h7, h8⟩ := C2_stop_checked_before_target
  refine ⟨h1 ⟨0, 100, 105, 97, 100, 1⟩ ⟨"", "buy", 100, 2, 4, 0, 0⟩ rfl ?_ ?_,
    h2 ⟨0, 100, 105, 99, 100, 1⟩ ⟨"", "buy", 100, 2, 4, 0, 0⟩ rfl ?_ ?_,
    h3 ⟨0, 100, 103, 95, 100, 1⟩ ⟨"", "sell", 100, 2, 4, 0, 0⟩ (by simp) ?_ ?_,
    h4 ⟨0, 100, 101, 95, 100, 1⟩ ⟨"", "sell", 100, 2, 4, 0, 0⟩ (by simp) ?_ ?_,
    h5 ⟨0, 100, 105, 95, 100, 1⟩ 2 4 100 ?_ ?_,
    h6 ⟨0, 100, 105, 103, 100, 1⟩ 2 4 100 ?_ ?_,
    h7 ⟨0, 100, 99, 95, 100, 1⟩ "buy" 2 4 100 (by simp) ?_ ?_,
    h8 ⟨0, 100, 97, 95, 100, 1⟩ "buy" 2 4 100 (by simp) ?_ ?_⟩ <;>
  · simp [Forward.stop_price, Forward.target_price, Backtest.stop_px, Backtest.tgt_px]
    try norm_num

/-- C5 counterexample: a take-profit exit of a LONG ("buy") position records
an exit price **above** the raw target price — the slippage constant is added
in the trader's favor, not "in the direction that is worse for the trader".
Slice: buy, entry 100, stop 2 % (stop price 98), target 4 % (target price
104); bar range [99, 105] hits only the target; the recorded exit price is
104 + 0.0001 > 104. -/
theorem C5_target_slippage_counterexample :
    Forward.bar_exit ⟨0, 100, 105, 99, 100, 1⟩ ⟨"", "buy", 100, 2, 4, 0, 0⟩
      = some (104 + Forward.SLIP, false) ∧ (104 : ℚ) < 104 + Forward.SLIP := by
  constructor
  · simp [Forward.bar_exit, Forward.stop_price, Forward.target_price]
    norm_num
  · norm_num [Forward.SLIP]

/-- C5 amended: every recorded stop/target exit price differs from the raw
stop/target price by exactly the fixed slippage constant, but the direction
is fixed per evaluator branch, not uniformly against the trader.  In
forward_compound.py it is displaced away from the entry: against the trader
on stop exits (closing LONG lower, closing SHORT higher) and in the trader's
favor on target exits (closing LONG higher, closing SHORT lower).  In
backtest.py the "long" branch subtracts SLIP on stop exits and adds it on
target exits, and every other side — including the lowercased "buy"/"sell"
its run loop actually passes — gets +SLIP on stops and −SLIP on targets, so
there a closing BUY's stop exit is recorded above the raw stop price, in
the trader's favor. -/
theorem C5_slippage_direction :
    (∀ (bar : Bar) (slc : Forward.Slice) (px : ℚ),
      (slc.side = "buy" → Forward.bar_exit bar slc = some (px, true) →
        px = Forward.stop_price slc - Forward.SLIP ∧ px < Forward.stop_price slc) ∧
      (slc.side = "buy" → Forward.bar_exit bar slc = some (px, false) →
        px = Forward.target_price slc + Forward.SLIP ∧ Forward.target_price slc < px) ∧
      (slc.side ≠ "buy" → Forward.bar_exit bar slc = some (px, true) →
        px = Forward.stop_price slc + Forward.SLIP ∧ Forward.stop_price slc < px) ∧
      (slc.side ≠ "buy" → Forward.bar_exit bar slc = some (px, false) →
        px = Forward.target_price slc - Forward.SLIP ∧ px < Forward.target_price slc)) ∧
    (∀ (bar : Bar) (side : String) (stop target entry_px px : ℚ) (t : ℤ),
      (side = "long" →
        Backtest.bar_exit bar side stop target entry_px = some (px, t, true) →
        px = Backtest.stop_px side stop entry_px - Backtest.SLIP ∧
          px < Backtest.stop_px side stop entry_px) ∧
      (side = "long" →
        Backtest.bar_exit bar side stop target entry_px = some (px, t, false) →
        px = Backtest.tgt_px side target entry_px + Backtest.SLIP ∧
          Backtest.tgt_px side target entry_px < px) ∧
      (side ≠ "long" →
        Backtest.bar_exit bar side stop target entry_px = some (px, t, true) →
        px = Backtest.stop_px side stop entry_px + Backtest.SLIP ∧
          Backtest.stop_px side stop entry_px < px) ∧
      (side ≠ "long" →
        Backtest.bar_exit bar side stop target entry_px = some (px, t, false) →
        px = Backtest.tgt_px side target entry_px - Backtest.SLIP ∧
          px < Backtest.tgt_px side target entry_px)) := by
  have hslip : (0 : ℚ) < Forward.SLIP := by norm_num [Forward.SLIP]
  have hslip2 : (0 : ℚ) < Backtest.SLIP := by norm_num [Backtest.SLIP]
  constructor
  · intro bar slc px
    refine ⟨?_, ?_, ?_, ?_⟩ <;> intro hside hexit
    · rw [Forward.bar_exit] at hexit
      simp only [hside, if_true, reduceIte] at hexit
      split_ifs at hexit with h1 h2 <;> simp_all
      linarith
    · rw [Forward.bar_exit] at hexit
      simp only [hside, if_true, reduceIte] at hexit
      split_ifs at hexit with h1 h2 <;> simp_all
      linarith
    · rw [Forward.bar_exit] at hexit
      simp only [hside, if_false, reduceIte] at hexit
      split_ifs at hexit with h1 h2 <;> simp_all
      linarith
    · rw [Forward.bar_exit] at hexit
      simp only [hside, if_false, reduceIte] at hexit
      split_ifs at hexit with h1 h2 <;> simp_all
      linarith
  · intro bar side stop target entry_px px t
    refine ⟨?_, ?_, ?_, ?_⟩ <;> intro hside hexit
    · rw [Backtest.bar_exit] at hexit
      simp only [hside, if_true, reduceIte] at hexit
      split_ifs at hexit with h1 h2 <;> simp_all
      linarith
    · rw [Backtest.bar_exit] at hexit
      simp only [hside, if_true, reduceIte] at hexit
      split_ifs at hexit with h1 h2 <;> simp_all
      linarith
    · rw [Backtest.bar_exit] at hexit
      simp only [hside, if_false, reduceIte] at hexit
      split_ifs at hexit with h1 h2 <;> simp_all
      linarith
    · rw [Backtest.bar_exit] at hexit
      simp only [hside, if_false, reduceIte] at hexit
      split_ifs at hexit with h1 h2 <;> simp_all
      linarith

/-- Witness for C5's amended theorem: a forward buy stop exit records
98 − 0.0001 < 98, a forward sell target exit records 96 − 0.0001 < 96, a
backtest "long"-branch target exit records 104 + 0.0001 > 104, and a
backtest "buy" (else-branch, as run actually calls it) stop exit records
98 + 0.0001 > 98. -/
theorem C5_slippage_direction_witness :
    ((98 : ℚ) - Forward.SLIP = Forward.stop_price ⟨"", "buy", 100, 2, 4, 0, 0⟩ - Forward.SLIP ∧
      (98 : ℚ) - Forward.SLIP < Forward.stop_price ⟨"", "buy", 100, 2, 4, 0, 0⟩) ∧
    ((96 : ℚ) - Forward.SLIP = Forward.target_price ⟨"", "sell", 100, 2, 4, 0, 0⟩ - Forward.SLIP ∧
      (96 : ℚ) - Forward.SLIP < Forward.target_price ⟨"", "sell", 100, 2, 4, 0, 0⟩) ∧
    ((104 : ℚ) + Backtest.SLIP = Backtest.tgt_px "long" 4 100 + Backtest.SLIP ∧
      Backtest.tgt_px "long" 4 100 < (104 : ℚ) + Backtest.SLIP) ∧
    ((98 : ℚ) + Backtest.SLIP = Backtest.stop_px "buy" 2 100 + Backtest.SLIP ∧
      Backtest.stop_px "buy" 2 100 < (98 : ℚ) + Backtest.SLIP) := by
  refine ⟨?_, ?_, ?_, ?_⟩
  · exact (C5_slippage_direction.1 ⟨0, 100, 105, 97, 100, 1⟩ ⟨"", "buy", 100, 2, 4, 0, 0⟩
      (98 - Forward.SLIP)).1 rfl
      (by simp [Forward.bar_exit, Forward.stop_price, Forward.target_price]; norm_num)
  · exact (C5_slippage_direction.1 ⟨0, 100, 101, 95, 100, 1⟩ ⟨"", "sell", 100, 2, 4, 0, 0⟩
      (96 - Forward.SLIP)).2.2.2 (by simp)
      (by simp [Forward.bar_exit, Forward.stop_price, Forward.target_price]; norm_num)
  · exact (C5_slippage_direction.2 ⟨0, 100, 105, 103, 100, 1⟩ "long" 2 4 100
      (104 + Backtest.SLIP) 0).2.1 rfl
      (by simp [Backtest.bar_exit, Backtest.stop_px, Backtest.tgt_px]; norm_num)
  · exact (C5_slippage_direction.2 ⟨0, 100, 99, 95, 100, 1⟩ "buy" 2 4 100
      (98 + Backtest.SLIP) 0).2.2.1 (by simp)
      (by simp [Backtest.bar_exit, Backtest.stop_px, Backtest.tgt_px]; norm_num)

/-- C7: for a position still open at a bar with
(bar time − entry time) ≥ 24 h = `MAX_HOLD_HOURS * 3600` seconds on which no
stop or target fired, the combined exit decision force-closes at the bar's
open price adjusted by the slippage constant (`open * (1 + SLIP)` for a
closing "buy", `open * (1 − SLIP)` otherwise, `hit_stop = false`); and the
time-based exit is evaluated only after the price-based exits: whenever
`bar_exit` fires, its result is the one used. -/
theorem C7_time_based_exit :
    ∀ (bar : Bar) (slc : Forward.Slice),
      (Forward.bar_exit bar slc = none →
        Forward.MAX_HOLD_HOURS * 3600 ≤ bar.time - slc.birth_time →
        Forward.sliceExit bar slc =
          some (bar.op * (if slc.side = "buy" then 1 + Forward.SLIP else 1 - Forward.SLIP),
            false)) ∧
      (∀ r, Forward.bar_exit bar slc = some r → Forward.sliceExit bar slc = some r) := by
  intro bar slc
  constructor
  · intro hnone htime
    rw [Forward.sliceExit, hnone, Forward.check_24h_exit, if_pos (by exact htime)]
  · intro r hr
    rw [Forward.sliceExit, hr]

/-- Witness for C7: a "buy" slice born at time 0 (entry 100, stop 2,
target 4), on the bar at time 86400 s = 24 h with open 100 and range
[99, 103] (neither stop 98 nor target 104 reachable), is force-closed at
100 × (1 + 0.0001); and on a bar whose low 97 trips the stop, the price
exit takes precedence. -/
theorem C7_time_based_exit_witness :
    Forward.sliceExit ⟨86400, 100, 103, 99, 100, 1⟩ ⟨"", "buy", 100, 2, 4, 0, 0⟩
      = some (100 * (1 + Forward.SLIP), false) ∧
    Forward.sliceExit ⟨86400, 100, 103, 97, 100, 1⟩ ⟨"", "buy", 100, 2, 4, 0, 0⟩
      = some (98 - Forward.SLIP, true) := by
  constructor
  · have h := (C7_time_based_exit ⟨86400, 100, 103, 99, 100, 1⟩ ⟨"", "buy", 100, 2, 4, 0, 0⟩).1
      (by simp [Forward.bar_exit, Forward.stop_price, Forward.target_price]; norm_num)
      (by norm_num [Forward.MAX_HOLD_HOURS])
    simpa using h
  · exact (C7_time_based_exit ⟨86400, 100, 103, 97, 100, 1⟩ ⟨"", "buy", 100, 2, 4, 0, 0⟩).2
      (98 - Forward.SLIP, true)
      (by simp [Forward.bar_exit, Forward.stop_price, Forward.target_price]; norm_num)

/-- Python exception classes that the tail of `get_signal` can raise. -/
inductive PyErr where
  | keyError
  | typeError
  | valueError
deriving DecidableEq, Repr

/-- A parsed JSON value (the possible results of `json.loads`). -/
inductive JVal where
  | null
  | jbool (b : Bool)
  | jnum (q : ℚ)
  | jstr (s : String)
  | jarr (xs : List JVal)
  | jobj (fields : List (String × JVal))

/-- Key lookup in a parsed JSON object; like a Python dict built by
`json.loads`, a later duplicate binding wins. -/
def getField (fields : List (String × JVal)) (k : String) : Option JVal :=
  fields.foldl (fun acc p => if p.1 = k then some p.2 else acc) none

/-- Python `obj[k]`: `KeyError` when the key is absent from a dict,
`TypeError` when `obj` is not a dict (string subscripts on lists, numbers,
strings or `None` all raise `TypeError`). -/
def subscript (j : JVal) (k : String) : Except PyErr JVal :=
  match j with
  | .jobj fields =>
      match getField fields k with
      | some v => .ok v
      | none => .error .keyError
  | _ => .error .typeError

/-- Value of a digit list, most significant first. -/
def digitsVal (cs : List Char) : ℕ :=
  cs.foldl (fun a c => 10 * a + (c.toNat - ('0').toNat)) 0

/-- Unsigned decimal numeral accepted by Python's `float()`: digits with an
optional decimal point (`"1"`, `"1."`, `".5"`, `"1.5"`); at least one digit
overall.  (Exponent and inf/nan forms of `float()` are outside the shapes
this repository's signals use and are not modelled.) -/
def parseUnsignedDec? (cs : List Char) : Option ℚ :=
  let intPart := cs.takeWhile Char.isDigit
  let rest := cs.dropWhile Char.isDigit
  match rest with
  | [] => if intPart = [] then none else some (digitsVal intPart)
  | '.' :: frac =>
      if frac.all Char.isDigit ∧ (intPart ≠ [] ∨ frac ≠ []) then
        some ((digitsVal intPart : ℚ) + (digitsVal frac : ℚ) / 10 ^ frac.length)
      else none
  | _ => none

/-- Python `float(s)` on a string: strips whitespace, optional sign,
decimal numeral; raises `ValueError` (here `none`) otherwise. -/
def pyFloatOfString? (s : String) : Option ℚ :=
  match s.trim.toList with
  | '+' :: rest => parseUnsignedDec? rest
  | '-' :: rest => (parseUnsignedDec? rest).map Neg.neg
  | cs => parseUnsignedDec? cs

/-- Python `float(x)` on a JSON-decoded value: numbers pass through, bools
become 0/1, numeric strings are parsed (`ValueError` otherwise), and `None`,
lists and dicts raise `TypeError`. -/
def pyFloatConv (j : JVal) : Except PyErr ℚ :=
  match j with
  | .jnum q => .ok q
  | .jbool b => .ok (if b then 1 else 0)
  | .jstr s =>
      match pyFloatOfString? s with
      | some q => .ok q
      | none => .error .valueError
  | _ => .error .typeError

/-- The response-handling tail of `get_signal` (deepseek_signal.py
lines 317–325), starting from the stripped response text `raw` (the
whitespace/code-fence stripping of lines 317–318 has already been applied)
and a JSON parser `jsonParse` standing for `json.loads` (`none` =
`JSONDecodeError`):

    if not raw: return "FLAT", 0.0, 0.0
    try: obj = json.loads(raw)
    except json.JSONDecodeError: return "FLAT", 0.0, 0.0
    return obj["action"], float(obj["stop"]), float(obj["target"])

The action is returned as-is (Python does not coerce it to a string); the
three components of the final tuple are evaluated left to right, so a
`KeyError`/`TypeError`/`ValueError` from any of them propagates to the
caller. -/
def get_signal_tail (raw : String) (jsonParse : String → Option JVal) :
    Except PyErr (JVal × ℚ × ℚ) := do
  if raw = "" then return (.jstr "FLAT", 0, 0)
  match jsonParse raw with
  | none => return (.jstr "FLAT", 0, 0)
  | some obj => do
      let action ← subscript obj "action"
      let stopv ← subscript obj "stop"
      let stop ← pyFloatConv stopv
      let targetv ← subscript obj "target"
      let target ← pyFloatConv targetv
      return (action, stop, target)

/-- A JSON payload that parses but has none of the expected fields. -/
def rawMissingFields : String := "\x7b\"foo\": 1\x7d"

/-- A JSON payload whose `stop` value is not numeric (`null`). -/
def rawNullStop : String :=
  "\x7b\"action\": \"BUY\", \"stop\": null, \"target\": 2\x7d"

/-- A JSON payload whose stop/target are far outside the sane bounds. -/
def rawOutOfRange : String :=
  "\x7b\"action\": \"BUY\", \"stop\": 50, \"target\": 0.1\x7d"

/-- `json.loads` oracle for the concrete payloads used in the theorems:
maps each payload string to its JSON parse, and everything else to a
decode error. -/
def jsonParseStub (s : String) : Option JVal :=
  if s = rawMissingFields then some (.jobj [("foo", .jnum 1)])
  else if s = rawNullStop then
    some (.jobj [("action", .jstr "BUY"), ("stop", .null), ("target", .jnum 2)])
  else if s = rawOutOfRange then
    some (.jobj [("action", .jstr "BUY"), ("stop", .jnum 50), ("target", .jnum (1/10))])
  else none

/-- C3: an empty or JSON-unparsable response is indeed recovered as
`("FLAT", 0, 0)`, but a response that parses as JSON and merely lacks the
`action`/`stop`/`target` fields raises `KeyError`, and a non-numeric `stop`
raises `TypeError` — `get_signal` propagates those exceptions to its caller
instead of substituting a FLAT signal. -/
theorem C3_malformed_response_raises :
    get_signal_tail "" jsonParseStub = .ok (.jstr "FLAT", 0, 0) ∧
    get_signal_tail "no json here" jsonParseStub = .ok (.jstr "FLAT", 0, 0) ∧
    get_signal_tail rawMissingFields jsonParseStub = .error .keyError ∧
    get_signal_tail rawNullStop jsonParseStub = .error .typeError := by
  refine ⟨rfl, ?_, ?_, ?_⟩ <;> rfl

/-- Clamping of a raw percentage into the spec's sane bounds, written from
the spec's words ("must clamp out-of-range stop/target percentages to sane
bounds (e.g., stop ∈ [0.5%, 10%], target ∈ [1%, 20%])"). -/
def specClamp (x lo hi : ℚ) : ℚ := max lo (min x hi)

/-- C8: `get_signal` performs no clamping: for the non-FLAT response with
stop = 50 and target = 0.1 it returns those raw values unchanged, although
the spec's bounds would clamp them to 10 and 1. -/
theorem C8_no_clamping :
    get_signal_tail rawOutOfRange jsonParseStub = .ok (.jstr "BUY", 50, 1/10) ∧
    specClamp 50 (1/2) 10 = 10 ∧ specClamp (1/10) 1 20 = 1 ∧
    (50 : ℚ) ≠ specClamp 50 (1/2) 10 ∧ (1/10 : ℚ) ≠ specClamp (1/10) 1 20 := by
  refine ⟨rfl, ?_, ?_, ?_, ?_⟩ <;> norm_num [specClamp]

/-- Result of a Python float statistic: an exact rational, +inf, NaN, or an
irrational value `mean/√variance · √365` recorded by the pair
(mean, variance) since only its branch identity matters to the claims. -/
inductive PyStat where
  | num (q : ℚ)
  | infR
  | nanR
  | irrat (m v : ℚ)
deriving DecidableEq, Repr

/-- Arithmetic mean of a list (pandas/numpy `.mean()`); the callers below
only use it on nonempty lists. -/
def listMean (xs : List ℚ) : ℚ := xs.sum / xs.length

/-- Sample variance with ddof = 1 (the square of pandas `.std()`).  Only the
length-≥-2 branch is meaningful: pandas returns NaN for fewer than two
samples, which the callers below handle separately. -/
def sampleVar (xs : List ℚ) : ℚ :=
  (xs.map (fun x => (x - listMean xs) ^ 2)).sum / (xs.length - 1)

/-- Truthiness of pandas `.std()`: NaN for fewer than two samples — and
`bool(nan)` is `True` in Python — zero exactly when the sample variance is
zero, truthy otherwise. -/
def stdIsNaN (xs : List ℚ) : Prop := xs.length < 2

instance (xs : List ℚ) : Decidable (stdIsNaN xs) := by
  unfold stdIsNaN; infer_instance

namespace DailySmaCross

/-- `profit_factor` from print_trade_results (daily_sma_cross.py
lines 106–112): winners are the trade returns > 0, losers those ≤ 0;
`gross_win = winners.sum() if len(winners) else 0`,
`gross_loss = abs(losers.sum()) if len(losers) else 0`, and
`profit_factor = gross_win / gross_loss if gross_loss else np.inf`. -/
def profit_factor (ret_pcts : List ℚ) : PyStat :=
  let winners := ret_pcts.filter (fun r => 0 < r)
  let losers := ret_pcts.filter (fun r => r ≤ 0)
  let gross_win : ℚ := if winners.length ≠ 0 then winners.sum else 0
  let gross_loss : ℚ := if losers.length ≠ 0 then |losers.sum| else 0
  if gross_loss ≠ 0 then .num (gross_win / gross_loss) else .infR

/-- `sharpe` from print_trade_results (line 116):
`(daily_ret.mean() / daily_ret.std()) * np.sqrt(365) if daily_ret.std() else 0`.
When `.std()` is NaN (fewer than two daily returns) the guard is TRUTHY
(`bool(nan)` is `True`), so the expression `mean/NaN*sqrt(365)` is computed
and the result is NaN; the 0 branch is reached only when the std is exactly
zero. -/
def sharpe (daily_ret : List ℚ) : PyStat :=
  if stdIsNaN daily_ret then .nanR
  else if sampleVar daily_ret = 0 then .num 0
  else .irrat (listMean daily_ret) (sampleVar daily_ret)

/-- `sortino` from print_trade_results (lines 117–118):
`downside = daily_ret[daily_ret < 0].std()`;
`sortino = (daily_ret.mean() / downside) * np.sqrt(365) if downside else np.inf`.
With no (or one) negative day, `downside` is NaN, which is truthy, so the
computed value is NaN; `np.inf` is returned only when `downside` is exactly
zero (at least two equal negative days). -/
def sortino (daily_ret : List ℚ) : PyStat :=
  let downside := daily_ret.filter (fun r => r < 0)
  if stdIsNaN downside then .nanR
  else if sampleVar downside = 0 then .infR
  else .irrat (listMean daily_ret) (sampleVar downside)

end DailySmaCross

namespace Grid45

/-- The early-return guard of metrics_from_returns (45pair_sma.py line 31):
`if daily.empty or daily.std() == 0` — note `NaN == 0` is `False`, so a
single-element series does not take this branch. -/
def degenerate (daily : List ℚ) : Prop :=
  daily = [] ∨ (2 ≤ daily.length ∧ sampleVar daily = 0)

instance (daily : List ℚ) : Decidable (degenerate daily) := by
  unfold degenerate; infer_instance

/-- `sharpe` from metrics_from_returns (45pair_sma.py lines 31–34):
0 on the degenerate guard, otherwise `(daily.mean()/daily.std())*sqrt(365)`,
which is NaN when the std is NaN (single sample). -/
def sharpe (daily : List ℚ) : PyStat :=
  if degenerate daily then .num 0
  else if stdIsNaN daily then .nanR
  else .irrat (listMean daily) (sampleVar daily)

/-- `sortino` from metrics_from_returns (45pair_sma.py lines 35–36):
`downside = daily[daily < 0].std()`;
`sortino = (daily.mean() / downside) * np.sqrt(365) if downside else 0`.
As in daily_sma_cross.py the NaN std of an empty/singleton downside series
is truthy, so no negative days yields NaN; the sentinel (here 0, not +inf)
is reached only when the downside std is exactly zero. -/
def sortino (daily : List ℚ) : PyStat :=
  if degenerate daily then .num 0
  else
    let downside := daily.filter (fun r => r < 0)
    if stdIsNaN downside then .nanR
    else if sampleVar downside = 0 then .num 0
    else .irrat (listMean daily) (sampleVar downside)

end Grid45

/-- C6: the divide-by-zero guards do NOT all return defined sentinels.
`profit_factor` is +∞ with no losing trades as claimed, but with two
positive daily returns [1%, 2%] (no negative days) both Sortino
computations produce NaN — the guard `if downside` is truthy because the
std of an empty selection is NaN and `bool(nan)` is `True` — where the
claim requires +∞ (daily_sma_cross.py) and 45pair_sma.py's own fallback
would anyway be 0, not +∞; likewise Sharpe on a single daily return is NaN,
not 0, although its std is undefined there. -/
theorem C6_sortino_nan_not_inf :
    DailySmaCross.profit_factor [1, 2] = .infR ∧
    DailySmaCross.sortino [1/100, 2/100] = .nanR ∧
    Grid45.sortino [1/100, 2/100] = .nanR ∧
    DailySmaCross.sharpe [1/100] = .nanR := by
  refine ⟨?_, ?_, ?_, ?_⟩
  · simp [DailySmaCross.profit_factor]
  · simp [DailySmaCross.sortino, stdIsNaN]
    norm_num
  · rw [Grid45.sortino, if_neg, if_pos]
    · show List.length _ < 2
      norm_num
    · rw [Grid45.degenerate]
      push_neg
      constructor
      · simp
      · intro _
        rw [sampleVar]
        norm_num [listMean]
  · simp [DailySmaCross.sharpe, stdIsNaN]

/-- Python `str.lower()` on the ASCII action strings
("BUY"/"SELL"/"FLAT") used by the scripts. -/
def pyLower (s : String) : String := ⟨s.data.map Char.toLower⟩

namespace Backtest

/-- A row of backtest.py's `trades` list (run, lines 126–131). -/
structure BTrade where
  open_time  : ℤ
  close_time : ℤ
  side       : String
  entry      : ℚ
  exitPx     : ℚ
  stop       : ℚ
  target     : ℚ
  hit_stop   : Bool
  pnl_pct    : ℚ
deriving DecidableEq, Repr

/-- The mutable loop state of backtest.py's run: the `trades` list and the
`trade_count` counter.  There is deliberately no open-position field — the
source keeps none. -/
structure RunState where
  trades      : List BTrade
  trade_count : ℕ
deriving DecidableEq, Repr

/-- The signal window `candles[i-50:i]` passed to get_signal, with Python
slice semantics: a negative start index `i-50` counts from the end of the
list, clamped at 0 (the run loop's warm-up guard keeps `i ≥ 50`, where this
is simply elements `i-50 .. i-1`). -/
def window (candles : List Bar) (i : ℕ) : List Bar :=
  let s : ℕ := if i < 50 then ((candles.length : ℤ) + i - 50).toNat else i - 50
  (candles.take i).drop s

/-- The trade record produced at bar `i` when the entry bar itself exits:
entry at `open * (1 + 5/3600/100)`, then `bar_exit` on the same candle with
side `action.lower()`; `none` when the bar triggers no exit (or, mirroring
Python's `if exit_px:` truthiness, when the exit price is 0). -/
def tradeRec? (sig : List Bar → String × ℚ × ℚ) (candles : List Bar)
    (i : ℕ) (cand : Bar) : Option BTrade :=
  let s := sig (window candles i)
  let entry_px := cand.op * (1 + 5 / 3600 / 100)
  match bar_exit cand (pyLower s.1) s.2.1 s.2.2 entry_px with
  | some (exit_px, exit_time, hs) =>
      if exit_px ≠ 0 then
        some ⟨cand.time, exit_time, s.1, entry_px, exit_px, s.2.1, s.2.2, hs,
          (exit_px - entry_px) / entry_px * (if s.1 = "BUY" then 1 else -1) - FEE⟩
      else none
  | none => none

/-- The main loop of backtest.py's run over the enumerated candle list:
skip the 50-bar warm-up, skip FLAT signals, increment `trade_count` on
every entry, append a trade record only when the entry bar itself exits,
and break once ten trades are recorded (the break test sits on the
non-FLAT path, as in the source). -/
def runLoop (sig : List Bar → String × ℚ × ℚ) (candles : List Bar) :
    List (ℕ × Bar) → RunState → RunState
  | [], st => st
  | (i, cand) :: rest, st =>
      if i < 50 then runLoop sig candles rest st
      else if (sig (window candles i)).1 = "FLAT" then runLoop sig candles rest st
      else
        let st1 : RunState := ⟨st.trades, st.trade_count + 1⟩
        let st2 : RunState :=
          match tradeRec? sig candles i cand with
          | some tr => ⟨st1.trades ++ [tr], st1.trade_count⟩
          | none => st1
        if 10 ≤ st2.trades.length then st2 else runLoop sig candles rest st2

/-- backtest.py's run on an already-shuffled candle list: the
`random.shuffle` of step 2 is modelled by taking the shuffled order as the
input, so the whole simulation is the pure function of the candle order and
the signal provider. -/
def run (sig : List Bar → String × ℚ × ℚ) (candles : List Bar) : RunState :=
  runLoop sig candles candles.enum ⟨[], 0⟩

/-- Every trade in the loop's final state was already present or is the
entry-bar record of one of the remaining enumerated bars. -/
theorem runLoop_trades_origin (sig : List Bar → String × ℚ × ℚ)
    (candles : List Bar) :
    ∀ (l : List (ℕ × Bar)) (st : RunState) (tr : BTrade),
      tr ∈ (runLoop sig candles l st).trades →
      tr ∈ st.trades ∨ ∃ p ∈ l, tradeRec? sig candles p.1 p.2 = some tr := by
  intro l
  induction l with
  | nil => intro st tr h; exact Or.inl h
  | cons p rest ih =>
      obtain ⟨i, cand⟩ := p
      intro st tr h
      rw [runLoop] at h
      split_ifs at h with h50 hflat
      · rcases ih st tr h with h' | ⟨q, hq, hrec⟩
        · exact Or.inl h'
        · exact Or.inr ⟨q, List.mem_cons_of_mem _ hq, hrec⟩
      · rcases ih st tr h with h' | ⟨q, hq, hrec⟩
        · exact Or.inl h'
        · exact Or.inr ⟨q, List.mem_cons_of_mem _ hq, hrec⟩
      · set st2 : RunState :=
          match tradeRec? sig candles i cand with
          | some tr' => ⟨st.trades ++ [tr'], st.trade_count + 1⟩
          | none => ⟨st.trades, st.trade_count + 1⟩ with hst2
        have hmem : tr ∈ st2.trades →
            tr ∈ st.trades ∨ ∃ p ∈ (i, cand) :: rest, tradeRec? sig candles p.1 p.2 = some tr := by
          intro h2
          rw [hst2] at h2
          rcases hrec : tradeRec? sig candles i cand with _ | tr'
          · rw [hrec] at h2
            exact Or.inl h2
          · rw [hrec] at h2
            simp only [List.mem_append, List.mem_singleton] at h2
            rcases h2 with h2 | h2
            · exact Or.inl h2
            · exact Or.inr ⟨(i, cand), List.mem_cons_self _ _, by rw [hrec, h2]⟩
        by_cases hbreak : 10 ≤ st2.trades.length
        · rw [if_pos hbreak] at h
          exact hmem h
        · rw [if_neg hbreak] at h
          rcases ih st2 tr h with h' | ⟨q, hq, hrec⟩
          · exact hmem h'
          · exact Or.inr ⟨q, List.mem_cons_of_mem _ hq, hrec⟩

/-- The trade counter never falls behind the number of recorded trades:
each append is preceded by its increment. -/
theorem runLoop_count_ge (sig : List Bar → String × ℚ × ℚ) (candles : List Bar) :
    ∀ (l : List (ℕ × Bar)) (st : RunState),
      st.trades.length ≤ st.trade_count →
      (runLoop sig candles l st).trades.length ≤
        (runLoop sig candles l st).trade_count := by
  intro l
  induction l with
  | nil => intro st h; exact h
  | cons p rest ih =>
      obtain ⟨i, cand⟩ := p
      intro st h
      rw [runLoop]
      split_ifs with h50 hflat
      · exact ih st h
      · exact ih st h
      · set st2 : RunState :=
          match tradeRec? sig candles i cand with
          | some tr' => ⟨st.trades ++ [tr'], st.trade_count + 1⟩
          | none => ⟨st.trades, st.trade_count + 1⟩ with hst2
        have h2 : st2.trades.length ≤ st2.trade_count := by
          rw [hst2]
          rcases tradeRec? sig candles i cand with _ | tr'
          · simpa using Nat.le_succ_of_le h
          · simpa using h
        by_cases hbreak : 10 ≤ st2.trades.length
        · rw [if_pos hbreak]; exact h2
        · rw [if_neg hbreak]; exact ih st2 h2

/-- A record produced at a bar carries that bar's time as its open time. -/
theorem tradeRec?_open_time (sig : List Bar → String × ℚ × ℚ)
    (candles : List Bar) (i : ℕ) (cand : Bar) (tr : BTrade)
    (h : tradeRec? sig candles i cand = some tr) : tr.open_time = cand.time := by
  rw [tradeRec?] at h
  split at h
  · split_ifs at h <;> cases h <;> rfl
  · cases h

end Backtest

/-- C9: in backtest.py's run loop a trade record is appended only when the
entry bar itself triggers a stop or target exit; an entry whose entry bar
triggers neither condition never produces a trade record on any bar
(assuming distinct bar timestamps so records can be attributed), and the
trade counter — incremented on every entry — never falls behind the record
count. -/
theorem C9_no_record_without_entry_bar_exit
    (sig : List Bar → String × ℚ × ℚ) (candles : List Bar) (j : ℕ) (candj : Bar)
    (hj : candles[j]? = some candj)
    (hexit : Backtest.bar_exit candj (pyLower (sig (Backtest.window candles j)).1)
        (sig (Backtest.window candles j)).2.1 (sig (Backtest.window candles j)).2.2
        (candj.op * (1 + 5 / 3600 / 100)) = none)
    (htimes : ∀ (i₁ i₂ : ℕ) (c₁ c₂ : Bar), candles[i₁]? = some c₁ →
        candles[i₂]? = some c₂ → c₁.time = c₂.time → i₁ = i₂) :
    (∀ tr ∈ (Backtest.run sig candles).trades, tr.open_time ≠ candj.time) ∧
    (Backtest.run sig candles).trades.length ≤ (Backtest.run sig candles).trade_count := by
  constructor
  · intro tr htr heq
    rcases Backtest.runLoop_trades_origin sig candles candles.enum ⟨[], 0⟩ tr htr with
      h | ⟨p, hp, hrec⟩
    · simp at h
    · have hget : candles[p.1]? = some p.2 := List.mem_enum_iff_getElem?.mp hp
      have hot : tr.open_time = p.2.time :=
        Backtest.tradeRec?_open_time sig candles p.1 p.2 tr hrec
      have hij : p.1 = j := htimes p.1 j p.2 candj hget hj (by rw [← hot, heq])
      rw [hij, hj] at hget
      cases hget
      rw [Backtest.tradeRec?, hij] at hrec
      simp only [hexit] at hrec
      exact Option.noConfusion hrec
  · exact Backtest.runLoop_count_ge sig candles candles.enum ⟨[], 0⟩ (by simp)

/-- The candle list for C9's witness run: 51 bars at times 0..50, each with
open 100, high 98, low 97 — the high stays below the (short-branch) stop
price and the low above the target price, so no entry bar ever exits. -/
def wBars : List Bar :=
  (List.range 51).map (fun k : ℕ => ⟨(k : ℤ), 100, 98, 97, 100, 1⟩)

/-- A deterministic signal provider that always answers BUY, stop 2 %,
target 4 %. -/
def wSig : List Bar → String × ℚ × ℚ := fun _ => ("BUY", 2, 4)

/-- Witness for C9: in the concrete run over `wBars` (one entry, at bar 50,
whose entry bar triggers neither exit condition) no record carries open
time 50, and the record count stays below the trade counter. -/
theorem C9_no_record_without_entry_bar_exit_witness :
    (∀ tr ∈ (Backtest.run wSig wBars).trades, tr.open_time ≠ (50 : ℤ)) ∧
    (Backtest.run wSig wBars).trades.length ≤ (Backtest.run wSig wBars).trade_count := by
  have key : ∀ (i : ℕ) (c : Bar), wBars[i]? = some c →
      c = ⟨(i : ℤ), 100, 98, 97, 100, 1⟩ := by
    intro i c h
    rw [wBars, List.getElem?_map] at h
    by_cases hi : i < 51
    · rw [List.getElem?_range hi] at h
      exact (Option.some.inj h).symm
    · rw [List.getElem?_eq_none (by simpa [List.length_range] using not_lt.mp hi)] at h
      exact Option.noConfusion h
  have hj : wBars[50]? = some ⟨(50 : ℤ), 100, 98, 97, 100, 1⟩ := by
    rw [wBars, List.getElem?_map, List.getElem?_range (by norm_num : (50 : ℕ) < 51)]
    simp
  have hexit : Backtest.bar_exit ⟨(50 : ℤ), 100, 98, 97, 100, 1⟩
      (pyLower (wSig (Backtest.window wBars 50)).1) (wSig (Backtest.window wBars 50)).2.1
      (wSig (Backtest.window wBars 50)).2.2
      ((100 : ℚ) * (1 + 5 / 3600 / 100)) = none := by
    have hlow : pyLower (wSig (Backtest.window wBars 50)).1 = "buy" := rfl
    rw [hlow]
    simp [Backtest.bar_exit, Backtest.stop_px, Backtest.tgt_px, wSig]
    norm_num
  have htimes : ∀ (i₁ i₂ : ℕ) (c₁ c₂ : Bar), wBars[i₁]? = some c₁ →
      wBars[i₂]? = some c₂ → c₁.time = c₂.time → i₁ = i₂ := by
    intro i₁ i₂ c₁ c₂ h1 h2 ht
    rw [key i₁ c₁ h1, key i₂ c₂ h2] at ht
    have ht' : (i₁ : ℤ) = i₂ := ht
    exact_mod_cast ht'
  exact C9_no_record_without_entry_bar_exit wSig wBars 50
    ⟨(50 : ℤ), 100, 98, 97, 100, 1⟩ hj hexit htimes

namespace Forward

/-- A row of forward_compound.py's `trades` list (run, lines 73–78). -/
structure FTrade where
  uid         : String
  open_t      : ℤ
  close_t     : ℤ
  side        : String
  entry       : ℚ
  exitPx      : ℚ
  hit_stop    : Bool
  exit_reason : String
  pnl_pct     : ℚ
  hold_hours  : ℚ
deriving DecidableEq, Repr

/-- The loop state of forward_compound.py's run: the open `slices`, the
`trades` list and the `closed_cnt` counter.  `opened` counts the slices
created so far; it indexes the uid stream that stands in for the random
`uuid.uuid4()` draws (randomness is an explicit input of the embedding). -/
structure FState where
  slices     : List Slice
  trades     : List FTrade
  closed_cnt : ℕ
  opened     : ℕ
deriving DecidableEq, Repr

/-- The signal window `candles[idx-50:idx]`, with Python slice semantics: a
negative start index `idx-50` counts from the end of the list, clamped at 0
(the run's start index is drawn from `randint(50, ...)`, so real iterations
have `idx ≥ 50`, where this is simply elements `idx-50 .. idx-1`). -/
def window (candles : List Bar) (idx : ℕ) : List Bar :=
  let s : ℕ := if idx < 50 then ((candles.length : ℤ) + idx - 50).toNat else idx - 50
  (candles.take idx).drop s

/-- Placeholder for the (never-reached) out-of-range `candles[birth_idx]`
lookup. -/
def defaultBar : Bar := ⟨0, 0, 0, 0, 0, 0⟩

/-- The trade dict appended at lines 73–78: pnl with double fee, the exit
reason string (`"stop"`, `"target"`, or `"24h_auto"` when the exit price
coincides with the slipped open price), the opening bar's time via
`candles[slc.birth_idx]["time"]`, and the holding time in hours. -/
def mkTrade (candles : List Bar) (bar : Bar) (slc : Slice) (exit_px : ℚ)
    (hit_stop : Bool) : FTrade :=
  let pnl_pct := (exit_px - slc.entry_px) / slc.entry_px *
    (if slc.side = "buy" then 1 else -1) - FEE * 2
  let exit_reason :=
    if hit_stop then "stop"
    else if exit_px ≠ bar.op * (if slc.side = "buy" then 1 + SLIP else 1 - SLIP) then "target"
    else "24h_auto"
  ⟨slc.uid, (candles.getD slc.birth_idx defaultBar).time, bar.time, slc.side,
    slc.entry_px, exit_px, hit_stop, exit_reason, pnl_pct,
    ((bar.time - slc.birth_time : ℤ) : ℚ) / 3600⟩

/-- The exit pass of one loop iteration (lines 60–83): every slice whose
`sliceExit` fires contributes a trade (in slice order) and is removed;
`closed_cnt` grows by the number of exits.  The source collects the exited
slices in `exits` and then calls `slices.remove(slc)` for each; since
removal is by identity and the exit condition depends only on the slice's
value, that equals keeping exactly the slices whose `sliceExit` is `none`. -/
def procExits (candles : List Bar) (bar : Bar) (st : FState) : FState :=
  let newTrades := st.slices.filterMap (fun slc =>
    (sliceExit bar slc).map (fun r => mkTrade candles bar slc r.1 r.2))
  ⟨st.slices.filter (fun slc => (sliceExit bar slc).isNone),
    st.trades ++ newTrades,
    st.closed_cnt + (st.slices.filter (fun slc => (sliceExit bar slc).isSome)).length,
    st.opened⟩

/-- One iteration of forward_compound.py's run loop at bar index `idx`:
exit processing first, then — only if the slice list is empty — a signal
query and possibly a new slice with entry `open * (1 + 5/3600/100)` and
side `action.lower()`.  `sig` returns `(action, stop, target, reason)`,
`uidStream` supplies the uuid draws. -/
def fcStep (sig : List Bar → String × ℚ × ℚ × String) (candles : List Bar)
    (uidStream : ℕ → String) (idx : ℕ) (st : FState) : FState :=
  match candles.get? idx with
  | none => st
  | some bar =>
      let st1 := procExits candles bar st
      if st1.slices.isEmpty then
        let s := sig (window candles idx)
        if s.1 ≠ "FLAT" then
          let entry := bar.op * (1 + 5 / 3600 / 100)
          { st1 with
            slices := st1.slices ++
              [⟨uidStream st1.opened, pyLower s.1, entry, s.2.1, s.2.2.1, idx, bar.time⟩],
            opened := st1.opened + 1 }
        else st1
      else st1

/-- The loop over bar indices with the `closed_cnt >= 20` break at the end
of each iteration (line 116). -/
def fcLoop (sig : List Bar → String × ℚ × ℚ × String) (candles : List Bar)
    (uidStream : ℕ → String) : List ℕ → FState → FState
  | [], st => st
  | idx :: rest, st =>
      let st' := fcStep sig candles uidStream idx st
      if 20 ≤ st'.closed_cnt then st' else fcLoop sig candles uidStream rest st'

/-- forward_compound.py's run: iterate from the (randomly drawn, here
explicit) `start` index to the end of the candle list, starting with no
slices, no trades and zero counters. -/
def run (sig : List Bar → String × ℚ × ℚ × String) (candles : List Bar)
    (uidStream : ℕ → String) (start : ℕ) : FState :=
  fcLoop sig candles uidStream (List.range' start (candles.length - start)) ⟨[], [], 0, 0⟩

/-- The sequence of loop states after each processed bar (stopping at the
break), used to state per-bar invariants of the run. -/
def fcLoopStates (sig : List Bar → String × ℚ × ℚ × String) (candles : List Bar)
    (uidStream : ℕ → String) : List ℕ → FState → List FState
  | [], _ => []
  | idx :: rest, st =>
      let st' := fcStep sig candles uidStream idx st
      st' :: (if 20 ≤ st'.closed_cnt then [] else fcLoopStates sig candles uidStream rest st')

/-- The per-bar states of forward_compound.py's run. -/
def runStates (sig : List Bar → String × ℚ × ℚ × String) (candles : List Bar)
    (uidStream : ℕ → String) (start : ℕ) : List FState :=
  fcLoopStates sig candles uidStream (List.range' start (candles.length - start)) ⟨[], [], 0, 0⟩

/-- One loop iteration keeps at most one slice open: exit processing only
removes slices, and a new slice is appended only when the list is empty. -/
theorem fcStep_slices_le_one (sig : List Bar → String × ℚ × ℚ × String)
    (candles : List Bar) (uidStream : ℕ → String) (idx : ℕ) (st : FState)
    (h : st.slices.length ≤ 1) :
    (fcStep sig candles uidStream idx st).slices.length ≤ 1 := by
  rw [fcStep]
  cases candles.get? idx with
  | none => exact h
  | some bar =>
      have h1 : (procExits candles bar st).slices.length ≤ 1 :=
        le_trans (List.length_filter_le _ _) h
      by_cases hempty : (procExits candles bar st).slices.isEmpty
      · simp only [hempty, if_true, reduceIte]
        split_ifs
        · have : (procExits candles bar st).slices = [] := List.isEmpty_iff.mp hempty
          simp [this]
        · exact h1
      · simp only [hempty, reduceIte]
        exact h1

/-- Every state reached by the loop keeps at most one slice open. -/
theorem fcLoopStates_le_one (sig : List Bar → String × ℚ × ℚ × String)
    (candles : List Bar) (uidStream : ℕ → String) :
    ∀ (l : List ℕ) (st : FState), st.slices.length ≤ 1 →
      ∀ s ∈ fcLoopStates sig candles uidStream l st, s.slices.length ≤ 1 := by
  intro l
  induction l with
  | nil => intro st _ s hs; simp [fcLoopStates] at hs
  | cons idx rest ih =>
      intro st h s hs
      rw [fcLoopStates] at hs
      rcases List.mem_cons.mp hs with hs | hs
      · rw [hs]
        exact fcStep_slices_le_one sig candles uidStream idx st h
      · split_ifs at hs with hbreak
        · simp at hs
        · exact ih (fcStep sig candles uidStream idx st) (fcStep_slices_le_one _ _ _ _ _ h) s hs

end Forward

/-- C10: in forward_compound's simulation loop a new slice is appended only
when the open-slice list is empty after the bar's exit processing, so after
every processed bar of the run at most one position is open. -/
theorem C10_at_most_one_open_slice
    (sig : List Bar → String × ℚ × ℚ × String) (candles : List Bar)
    (uidStream : ℕ → String) (start : ℕ) :
    ∀ s ∈ Forward.runStates sig candles uidStream start, s.slices.length ≤ 1 := by
  intro s hs
  exact Forward.fcLoopStates_le_one sig candles uidStream _ _ (by simp) s hs

/-- Signal provider for the concrete forward runs: always BUY with stop 2 %
and target 4 %. -/
def cSig4 : List Bar → String × ℚ × ℚ × String := fun _ => ("BUY", 2, 4, "r")

/-- A fixed uid stream standing in for the `uuid.uuid4()` draws. -/
def cUid : ℕ → String := fun _ => "u"

/-- 51 bars at times 0..50 with open 100, high 103, low 97: high enough to
trip the 2 % stop of a "buy" slice opened one bar earlier (the embedded
entry sits at `100·(1+5/3600/100)` so the stop price ≈ 98.0014 is above the
low 97). -/
def cBars4 : List Bar :=
  (List.range 51).map (fun k : ℕ => ⟨(k : ℤ), 100, 103, 97, 100, 1⟩)

/-- Witness for C10: the single state of the run started at bar 50 — one
freshly opened slice — has at most one open slice. -/
theorem C10_at_most_one_open_slice_witness :
    (⟨[⟨"u", "buy", 100 * (1 + 5 / 3600 / 100), 2, 4, 50, 50⟩], [], 0, 1⟩ :
      Forward.FState).slices.length ≤ 1 :=
  C10_at_most_one_open_slice cSig4 cBars4 cUid 50 _ (List.mem_cons_self _ _)

/-- A loop iteration taken on an empty slice list with a FLAT signal leaves
the state unchanged: exit processing has nothing to close and the entry
block is skipped. -/
theorem fcStep_flat (sig : List Bar → String × ℚ × ℚ × String)
    (candles : List Bar) (uidStream : ℕ → String) (idx : ℕ) (st : Forward.FState)
    (hsl : st.slices = [])
    (hflat : (sig (Forward.window candles idx)).1 = "FLAT") :
    Forward.fcStep sig candles uidStream idx st = st := by
  rw [Forward.fcStep]
  cases h : candles.get? idx with
  | none => rfl
  | some bar =>
      have h1 : Forward.procExits candles bar st = st := by
        simp only [Forward.procExits, hsl, List.filterMap_nil, List.filter_nil,
          List.append_nil, List.length_nil, Nat.add_zero]
        rw [← hsl]
      simp [h1, hsl, hflat]

/-- One-step unfolding of the loop on a cons cell. -/
theorem fcLoop_cons (sig : List Bar → String × ℚ × ℚ × String) (candles : List Bar)
    (uidStream : ℕ → String) (idx : ℕ) (rest : List ℕ) (st : Forward.FState) :
    Forward.fcLoop sig candles uidStream (idx :: rest) st =
      if 20 ≤ (Forward.fcStep sig candles uidStream idx st).closed_cnt
      then Forward.fcStep sig candles uidStream idx st
      else Forward.fcLoop sig candles uidStream rest
        (Forward.fcStep sig candles uidStream idx st) := rfl

/-- Iterating over any index list whose signals are all FLAT, starting with
no open slices, leaves the state unchanged. -/
theorem fcLoop_flat (sig : List Bar → String × ℚ × ℚ × String)
    (candles : List Bar) (uidStream : ℕ → String) :
    ∀ (l : List ℕ) (st : Forward.FState), st.slices = [] →
      (∀ idx ∈ l, (sig (Forward.window candles idx)).1 = "FLAT") →
      Forward.fcLoop sig candles uidStream l st = st := by
  intro l
  induction l with
  | nil => intro st _ _; rfl
  | cons idx rest ih =>
      intro st hsl hflat
      simp only [Forward.fcLoop]
      rw [fcStep_flat sig candles uidStream idx st hsl (hflat idx (List.mem_cons_self _ _))]
      split_ifs
      · rfl
      · exact ih st hsl (fun j hj => hflat j (List.mem_cons_of_mem _ hj))

/-- The opening stretch of the 5051-bar series: 52 bars at times 0..51 with
open 100, high 103, low 97 — volatile enough that the 2 % stop of a "buy"
slice opened on one bar trips on the next (the entry sits at
`100·(1+5/3600/100)`, so the stop price ≈ 98.0014 is above the low 97). -/
def cHead : List Bar :=
  (List.range 52).map (fun k : ℕ => ⟨(k : ℤ), 100, 103, 97, 100, 1⟩)

/-- 4999 further identical bars (time 1000), only there to give the series
the length forward_compound's start draw requires. -/
def cTail : List Bar := List.replicate 4999 ⟨1000, 100, 103, 97, 100, 1⟩

/-- A 5051-bar series: long enough for forward_compound's
`start = random.randint(50, len(candles) - 5000)` draw, whose two possible
values here are 50 and 51. -/
def cBig : List Bar := cHead ++ cTail

/-- Every bar of the series other than the first has a nonzero time. -/
theorem cBig_time_ne_zero (j : ℕ) (hj : 1 ≤ j) (b : Bar)
    (hb : cBig[j]? = some b) : b.time ≠ 0 := by
  rw [cBig, List.getElem?_append] at hb
  by_cases h52 : j < 52
  · rw [if_pos (by simpa [cHead] using h52)] at hb
    rw [cHead, List.getElem?_map, List.getElem?_range h52] at hb
    have ht : ((j : ℤ)) ≠ 0 := by exact_mod_cast Nat.one_le_iff_ne_zero.mp hj
    rw [← Option.some.inj hb]
    exact ht
  · rw [if_neg (by simpa [cHead] using h52)] at hb
    rw [cTail, List.getElem?_replicate] at hb
    by_cases hc : j - cHead.length < 4999
    · rw [if_pos hc] at hb
      rw [← Option.some.inj hb]
      simp
    · rw [if_neg hc] at hb
      exact Option.noConfusion hb

/-- A deterministic signal provider: BUY (stop 2 %, target 4 %) when the
window starts at the series' first bar (time 0) — which happens only at bar
index 50 — and FLAT everywhere else. -/
def bSig : List Bar → String × ℚ × ℚ × String := fun w =>
  if w.head?.map Bar.time = some 0 then ("BUY", 2, 4, "r") else ("FLAT", 0, 0, "r")

/-- Past index 50 the provider `bSig` answers FLAT: the window then starts
at bar `idx - 50 ≥ 1`, whose time is not 0. -/
theorem bSig_far_flat (idx : ℕ) (h51 : 51 ≤ idx) :
    (bSig (Forward.window cBig idx)).1 = "FLAT" := by
  have hw : (Forward.window cBig idx).head? = cBig[idx - 50]? := by
    simp only [Forward.window]
    rw [if_neg (by omega), List.head?_eq_getElem?, List.getElem?_drop, Nat.add_zero,
      List.getElem?_take, if_pos (by omega)]
  simp only [bSig, hw]
  cases hx : cBig[idx - 50]? with
  | none => rw [if_neg (by simp)]
  | some b =>
      have hb : b.time ≠ 0 := cBig_time_ne_zero (idx - 50) (by omega) b hx
      rw [if_neg (by simp [hb])]

set_option maxRecDepth 8000 in
/-- C4 counterexample: on the same 5051-bar series with the same
deterministic signal provider, the two executions whose start draws are the
two values `random.randint(50, len(candles) - 5000) = random.randint(50, 51)`
can return — 50 and 51 — produce different results: the start-50 run gets
the one BUY signal (at bar 50) and closes one trade on bar 51's stop, while
the start-51 run only ever sees FLAT and closes none.  The output is
therefore not a function of the bars and the provider alone. -/
theorem C4_random_draw_counterexample :
    (Forward.run bSig cBig cUid 50).closed_cnt = 1 ∧
    (Forward.run bSig cBig cUid 51).closed_cnt = 0 ∧
    Forward.run bSig cBig cUid 50 ≠ Forward.run bSig cBig cUid 51 := by
  have hlen : cBig.length = 5051 := by
    rw [cBig, List.length_append, cHead, List.length_map, List.length_range, cTail,
      List.length_replicate]
  have hstep50 : Forward.fcStep bSig cBig cUid 50 ⟨[], [], 0, 0⟩ =
      ⟨[⟨"u", "buy", 100 * (1 + 5 / 3600 / 100), 2, 4, 50, 50⟩], [], 0, 1⟩ := rfl
  have hexitA : Forward.sliceExit ⟨(51 : ℤ), 100, 103, 97, 100, 1⟩
      ⟨"u", "buy", 100 * (1 + 5 / 3600 / 100), 2, 4, 50, 50⟩ =
      some (Forward.stop_price ⟨"u", "buy", 100 * (1 + 5 / 3600 / 100), 2, 4, 50, 50⟩
        - Forward.SLIP, true) := by
    have hb : Forward.bar_exit ⟨(51 : ℤ), 100, 103, 97, 100, 1⟩
        ⟨"u", "buy", 100 * (1 + 5 / 3600 / 100), 2, 4, 50, 50⟩ =
        some (Forward.stop_price ⟨"u", "buy", 100 * (1 + 5 / 3600 / 100), 2, 4, 50, 50⟩
          - Forward.SLIP, true) := by
      simp [Forward.bar_exit, Forward.stop_price]
      norm_num
    rw [Forward.sliceExit, hb]
  have hflat51 : bSig (Forward.window cBig 51) = ("FLAT", 0, 0, "r") := rfl
  have hstep51c : (Forward.fcStep bSig cBig cUid 51
      ⟨[⟨"u", "buy", 100 * (1 + 5 / 3600 / 100), 2, 4, 50, 50⟩], [], 0, 1⟩).closed_cnt = 1 := by
    simp only [Forward.fcStep,
      show cBig.get? 51 = some (⟨(51 : ℤ), 100, 103, 97, 100, 1⟩ : Bar) from rfl]
    simp [Forward.procExits, hexitA, hflat51]
  have hstep51s : (Forward.fcStep bSig cBig cUid 51
      ⟨[⟨"u", "buy", 100 * (1 + 5 / 3600 / 100), 2, 4, 50, 50⟩], [], 0, 1⟩).slices = [] := by
    simp only [Forward.fcStep,
      show cBig.get? 51 = some (⟨(51 : ℤ), 100, 103, 97, 100, 1⟩ : Bar) from rfl]
    simp [Forward.procExits, hexitA, hflat51]
  have hr : List.range' 50 5001 = 50 :: 51 :: List.range' 52 4999 := by
    rw [show (5001 : ℕ) = 5000 + 1 from rfl, List.range'_succ,
        show (50 : ℕ) + 1 = 51 from rfl,
        show (5000 : ℕ) = 4999 + 1 from rfl, List.range'_succ,
        show (51 : ℕ) + 1 = 52 from rfl]
  have hA : Forward.run bSig cBig cUid 50 = Forward.fcStep bSig cBig cUid 51
      ⟨[⟨"u", "buy", 100 * (1 + 5 / 3600 / 100), 2, 4, 50, 50⟩], [], 0, 1⟩ := by
    rw [Forward.run, hlen, show (5051 : ℕ) - 50 = 5001 from rfl, hr]
    rw [fcLoop_cons, hstep50, if_neg (by decide)]
    rw [fcLoop_cons, if_neg (by rw [hstep51c]; norm_num)]
    exact fcLoop_flat bSig cBig cUid _ _ hstep51s (fun j hj => by
      obtain ⟨hj1, hj2⟩ := List.mem_range'_1.mp hj
      exact bSig_far_flat j (by omega))
  have hB : Forward.run bSig cBig cUid 51 = ⟨[], [], 0, 0⟩ := by
    rw [Forward.run, hlen]
    exact fcLoop_flat bSig cBig cUid _ _ rfl (fun j hj => by
      obtain ⟨hj1, hj2⟩ := List.mem_range'_1.mp hj
      exact bSig_far_flat j hj1)
  have h1 : (Forward.run bSig cBig cUid 50).closed_cnt = 1 := by rw [hA, hstep51c]
  have h0 : (Forward.run bSig cBig cUid 51).closed_cnt = 0 := by rw [hB]
  refine ⟨h1, h0, fun h => ?_⟩
  have hc := congrArg Forward.FState.closed_cnt h
  rw [h1, h0] at hc
  exact absurd hc (by norm_num)

/-- C4 amended: once the pseudo-random draws are fixed along with the input
bars and the signal provider — the shuffled candle order for backtest.py,
and the start index and uid stream for forward_compound.py — two executions
of the same run produce identical trade records and final statistics: the
embedded simulations are pure functions of those inputs. -/
theorem C4_fixed_randomness_determinism :
    (∀ (sigA sigB : List Bar → String × ℚ × ℚ) (cA cB : List Bar),
        sigA = sigB → cA = cB → Backtest.run sigA cA = Backtest.run sigB cB) ∧
    (∀ (sigA sigB : List Bar → String × ℚ × ℚ × String) (cA cB : List Bar)
        (uA uB : ℕ → String) (sA sB : ℕ),
        sigA = sigB → cA = cB → uA = uB → sA = sB →
        Forward.run sigA cA uA sA = Forward.run sigB cB uB sB) := by
  constructor
  · intro sigA sigB cA cB h1 h2
    rw [h1, h2]
  · intro sigA sigB cA cB uA uB sA sB h1 h2 h3 h4
    rw [h1, h2, h3, h4]

/-- Witness for C4's amended theorem at concrete runs. -/
theorem C4_fixed_randomness_determinism_witness :
    Backtest.run wSig wBars = Backtest.run wSig wBars ∧
    Forward.run cSig4 cBars4 cUid 50 = Forward.run cSig4 cBars4 cUid 50 :=
  ⟨C4_fixed_randomness_determinism.1 wSig wSig wBars wBars rfl rfl,
   C4_fixed_randomness_determinism.2 cSig4 cSig4 cBars4 cBars4 cUid cUid 50 50
     rfl rfl rfl rfl⟩
